import Mathlib

/-!
Verification development for the LCR course-notebook repository.

The repository holds two Jupyter notebooks:
  - an assignment notebook performing KNN classification on the Wine dataset
    (standardization, seeded train/test split, grid search over n_neighbors,
    test-set accuracy), and
  - a teaching notebook performing statistical inference with linear regression
    on the Sacramento real-estate dataset (three OLS fits and a one-hot encoding
    of the categorical house-type column).

Numeric cell values are embedded as rationals.  A data frame is embedded as a
list of columns, each column a list of cell values; row operations act uniformly
on every column, which makes the row linkage between predictor columns and the
response column explicit.  The standard deviation of a column is irrational in
general, so transforms that divide by it take the deviation as a parameter
constrained by the predicate IsStdOf.

Cells that the assignment leaves for the student to fill in (the train/test
split call, the grid search, the evaluation cell) are not present in the source;
definitions for those parts are modelled from the spec and say so in their
doc comments.
-/

namespace LCR

/-! ## Assignment notebook: data model and standardization (source cells) -/

namespace Assignment

/-- The wine data frame as columns: the feature columns with the class column
bound last, embedding the cell that builds wine_df from wine_data.data and then
binds wine_df with the target as the trailing class column. -/
def wine_df (features : List (List ℚ)) (classCol : List ℚ) : List (List ℚ) :=
  features ++ [classCol]

/-- predictors = wine_df.iloc with every column but the last selected. -/
def predictors (cols : List (List ℚ)) : List (List ℚ) :=
  cols.dropLast

/-- Arithmetic mean of a column, as computed by StandardScaler. -/
def colMean (xs : List ℚ) : ℚ :=
  xs.sum / xs.length

/-- Population variance of a column, as computed by StandardScaler. -/
def colVar (xs : List ℚ) : ℚ :=
  ((xs.map fun x => (x - colMean xs) ^ 2).sum) / xs.length

/-- The per-column statistics recorded when a StandardScaler is fit. -/
structure ScalerStats where
  mean : ℚ
  var : ℚ
deriving DecidableEq, Repr

/-- Fitting the scaler on a column records the mean and the variance of that column. -/
def fitColumn (xs : List ℚ) : ScalerStats :=
  ⟨colMean xs, colVar xs⟩

/-- s is the standard deviation belonging to fitted statistics st. -/
def IsStdOf (s : ℚ) (st : ScalerStats) : Prop :=
  0 ≤ s ∧ s ^ 2 = st.var

/-- The scaler transform of a column: subtract the mean m, divide by the
standard deviation s. -/
def transformColumn (m s : ℚ) (xs : List ℚ) : List ℚ :=
  xs.map fun x => (x - m) / s

/-- The fit_transform cell of the notebook: each predictor column is fit and
transformed with the statistics of ALL of its rows (the frame has not been
split at this point in the notebook), with stds the list of per-column standard
deviations. -/
def fit_transform (cols : List (List ℚ)) (stds : List ℚ) : List (List ℚ) :=
  List.zipWith (fun col s => transformColumn (colMean col) s col) cols stds

/-- predictors_standardized: the frame obtained by the fit_transform cell,
applied to the predictor columns of wine_df. -/
def predictors_standardized (cols : List (List ℚ)) (stds : List ℚ) : List (List ℚ) :=
  fit_transform (predictors cols) stds

end Assignment

/-! ## Assignment notebook: train/test split (modelled from the spec) -/

namespace Assignment

/-- Select the rows of a column named by an index list. -/
def selectRows (idx : List ℕ) (col : List ℚ) : List ℚ :=
  idx.map fun i => col.getD i 0

/-- Modelled from the spec: the train_test_split call is not under src (the
split cell holds only the seed call and a student fill-in); the spec and the
notebook prose fix a 75 percent training / 25 percent testing partition.  With
test size one quarter, the test set receives the ceiling of n / 4 rows. -/
def testCount (n : ℕ) : ℕ :=
  (n + 3) / 4

/-- Modelled from the spec: the seed-determined shuffle of the row indices is
the list perm; the test rows are drawn from its front. -/
def testIdx (perm : List ℕ) : List ℕ :=
  perm.take (testCount perm.length)

/-- Modelled from the spec: the training rows are the shuffled indices left
after the test rows are removed. -/
def trainIdx (perm : List ℕ) : List ℕ :=
  perm.drop (testCount perm.length)

/-- Modelled from the spec: train_test_split applied to the predictor columns X
and the response column y, with the same index lists driving every column, so
that a row keeps its X cells and its y cell on the same side of the split.
Returns ((X_train, y_train), (X_test, y_test)). -/
def train_test_split (perm : List ℕ) (X : List (List ℚ)) (y : List ℚ) :
    (List (List ℚ) × List ℚ) × (List (List ℚ) × List ℚ) :=
  ((X.map (selectRows (trainIdx perm)), selectRows (trainIdx perm) y),
   (X.map (selectRows (testIdx perm)), selectRows (testIdx perm) y))

/-- The standardization the spec describes for C1: the scaler statistics are
computed from the training-fold rows only, and the column is transformed with
those train-only statistics.  This follows the words of the spec, to be
compared with the notebook cell, which fits on all rows. -/
def spec_train_standardize (tr : List ℕ) (col : List ℚ) (s : ℚ) : List ℚ :=
  transformColumn (colMean (selectRows tr col)) s col

end Assignment

/-! ## Assignment notebook: grid search and evaluation (modelled from the spec) -/

namespace Assignment

/-- Modelled from the spec: the grid-search cell is a student fill-in; the spec
and the notebook prose fix a parameter grid for n_neighbors ranging over every
integer from 1 to 50. -/
def param_grid : List ℕ :=
  (List.range 50).map (· + 1)

/-- Modelled from the spec: the number of cross-validation folds. -/
def fold_count : ℕ := 10

/-- Modelled from the spec: the mean validation score of grid point k, the mean
over the folds of score k f, where score k f abstracts the validation score
scikit-learn computes for the KNN model with n_neighbors = k on fold f. -/
def mean_score (score : ℕ → ℕ → ℚ) (k : ℕ) : ℚ :=
  ((List.range fold_count).map (score k)).sum / fold_count

/-- The first maximizer of f over a list of grid points, scanning left to
right, as GridSearchCV ranks grid points by mean validation score. -/
def best_of (f : ℕ → ℚ) : List ℕ → ℕ
  | [] => 0
  | g :: gs => gs.foldl (fun best k => if f best < f k then k else best) g

/-- Modelled from the spec: the grid search records the n_neighbors value with
the best mean validation score over the grid. -/
def best_n_neighbors (score : ℕ → ℕ → ℚ) : ℕ :=
  best_of (mean_score score) param_grid

/-- accuracy_score: the fraction of positions where the prediction equals the
true label. -/
def accuracy_score (yTrue yPred : List ℕ) : ℚ :=
  ((List.zip yTrue yPred).countP (fun p => p.1 == p.2) : ℚ) / yTrue.length

/-- Modelled from the spec: the evaluation cell is a student fill-in; per the
spec it refits KNN with the selected n_neighbors on the full training partition
and reports accuracy_score on the held-out test partition.  knn k train x
abstracts the prediction of the scikit-learn model refit on train with
n_neighbors = k. -/
def eval_step (knn : ℕ → List (List ℚ × ℕ) → List ℚ → ℕ) (score : ℕ → ℕ → ℚ)
    (Xtrain : List (List ℚ)) (ytrain : List ℕ)
    (Xtest : List (List ℚ)) (ytest : List ℕ) : ℚ :=
  accuracy_score ytest (Xtest.map (knn (best_n_neighbors score) (List.zip Xtrain ytrain)))

/-- Modelled from the spec: the numpy global random-number-generator state. -/
structure RngState where
  seedVal : ℕ
  counter : ℕ
deriving DecidableEq, Repr

/-- np.random.seed(n): the global generator state is reinitialized from n
alone; whatever state was there before is discarded. -/
def np_random_seed (n : ℕ) (_prior : RngState) : RngState :=
  ⟨n, 0⟩

/-- A simple linear congruential mix. -/
def lcg (x : ℕ) : ℕ :=
  (1103515245 * x + 12345) % 2 ^ 31

/-- Modelled from the spec: the shuffled row order train_test_split draws from
the generator state.  The concrete mixing stands in for the numpy generator,
which is external library code; the claims need only that the shuffle is a pure
function of the state and the row count. -/
def shuffleIdx (st : RngState) (n : ℕ) : List ℕ :=
  (List.range n).rotateLeft (lcg (st.seedVal + st.counter))

/-- Modelled from the spec: one run of the split cell, drawing the shuffle for
the current generator state and partitioning X and y with it. -/
def split_run (st : RngState) (X : List (List ℚ)) (y : List ℚ) :
    (List (List ℚ) × List ℚ) × (List (List ℚ) × List ℚ) :=
  train_test_split (shuffleIdx st y.length) X y

end Assignment

/-! ## Notebook traces -/

/-- One executable statement of a notebook code cell, at the granularity the
claims mention.  todo stands for a fill-in cell that holds only a comment. -/
inductive NotebookOp where
  | importLibs
  | loadWine
  | todo
  | standardizeCell
  | setSeed (n : ℕ)
  | readCsv (path : String)
  | olsFit (name response : String) (preds : List String)
  | printSummary (name : String)
  | plotCell
  | uniqueVals (column : String)
  | getDummiesCell (columns : List String) (dropFirst : Bool)
  | displayFrame
  | renameCols
deriving DecidableEq, Repr

/-- The code cells of the assignment notebook, top to bottom: imports, the
load_wine cell, the four data-inspection answer cells, the standardization
cell, the seed call and the split fill-in, the grid-search fill-in, and the
evaluation fill-in. -/
def assignment_notebook : List NotebookOp :=
  [.importLibs, .loadWine, .todo, .todo, .todo, .todo, .standardizeCell,
   .setSeed 123, .todo, .todo, .todo]

/-- The fixed relative path of the teaching-notebook dataset. -/
def sacramento_csv_path : String :=
  "../../01_materials/notebooks/dataset/sacramento.csv"

/-- The code cells of the teaching notebook, top to bottom. -/
def inference_notebook : List NotebookOp :=
  [.importLibs,
   .readCsv sacramento_csv_path,
   .olsFit "model" "price" ["sq__ft"],
   .printSummary "model",
   .plotCell,
   .olsFit "multi_model" "price" ["sq__ft", "beds"],
   .printSummary "multi_model",
   .uniqueVals "type",
   .getDummiesCell ["type"] true,
   .displayFrame,
   .renameCols,
   .olsFit "multi_cat_model" "price" ["sq__ft", "beds", "type_Multi_Family", "type_Residential"],
   .printSummary "multi_cat_model"]

/-- Running the notebook cells top to bottom: each statement either produces a
new state or raises.  Neither notebook contains an exception handler (no
try/except occurs in any cell), so the run stops at the first raised
exception. -/
def runCells {St Err : Type} (exec : NotebookOp → St → Except Err St) :
    List NotebookOp → St → Except Err St
  | [], s => .ok s
  | c :: cs, s =>
    match exec c s with
    | .ok s2 => runCells exec cs s2
    | .error e => .error e

/-! ## Teaching notebook: one-hot encoding and OLS fits (source cells) -/

namespace Inference

/-- Modelled from the spec: the sacramento csv itself is not under src; the
unique() cell and the surrounding notebook prose fix the three categories of
the type column.  pandas sorts the unique category values; on these three the
sorted order is Condo, Multi-Family, Residential. -/
def type_categories : List String :=
  ["Condo", "Multi-Family", "Residential"]

/-- pd.get_dummies indicator columns for a sorted list of category values: one
column per category, with the first category dropped when drop_first is set. -/
def get_dummies_cols (categories : List String) (dropFirst : Bool) : List String :=
  if dropFirst then categories.tail else categories

/-- The cell value of the indicator column for category cat on a row whose
original type value is v. -/
def dummy_val (cat v : String) : ℕ :=
  if v = cat then 1 else 0

/-- The indicator cells of one encoded row. -/
def encode_row (categories : List String) (dropFirst : Bool) (v : String) : List ℕ :=
  (get_dummies_cols categories dropFirst).map fun c => dummy_val c v

/-- The rename cell maps every hyphen of a column name to an underscore. -/
def sanitizeChar (c : Char) : Char :=
  if c = '-' then '_' else c

/-- str.replace of hyphens by underscores on a column name. -/
def sanitizeName (s : String) : String :=
  String.mk (s.data.map sanitizeChar)

/-- The encoded type column names: get_dummies prefixes the source column name,
the rename cell replaces hyphens. -/
def encoded_type_cols : List String :=
  (get_dummies_cols type_categories true).map fun c => sanitizeName ("type_" ++ c)

/-- Modelled from the spec: the statistics a statsmodels model summary
reports, as documented by the notebook markdown around the summary cells. -/
inductive SummaryStat where
  | coef
  | stdErr
  | tStat
  | pValue
  | confInt
  | rSquared
deriving DecidableEq, Repr

/-- The six statistics every printed summary shows. -/
def summary_stats : List SummaryStat :=
  [.coef, .stdErr, .tStat, .pValue, .confInt, .rSquared]

/-- The OLS fits of a notebook trace, in order: model name, response,
predictors. -/
def olsFits (nb : List NotebookOp) : List (String × String × List String) :=
  nb.filterMap fun op =>
    match op with
    | .olsFit name response preds => some (name, response, preds)
    | _ => none

end Inference

/-! ## Stub definitions used by witness theorems -/

/-- A classifier stub for the C4 witness: it always predicts label 0. -/
def constKnn : ℕ → List (List ℚ × ℕ) → List ℚ → ℕ := fun _ _ _ => 0

/-- A validation-score stub for the C4 witness. -/
def constScore : ℕ → ℕ → ℚ := fun _ _ => 0

/-- An execution stub for the C7 witness: the read of the csv raises 404,
every other statement succeeds and counts. -/
def failingExec : NotebookOp → ℕ → Except ℕ ℕ := fun op n =>
  match op with
  | .readCsv _ => .error 404
  | _ => .ok (n + 1)

/-- The statements of the teaching notebook after the failing csv read, for
the C7 witness. -/
def opsAfterRead : List NotebookOp :=
  [.olsFit "model" "price" ["sq__ft"],
   .printSummary "model",
   .plotCell,
   .olsFit "multi_model" "price" ["sq__ft", "beds"],
   .printSummary "multi_model",
   .uniqueVals "type",
   .getDummiesCell ["type"] true,
   .displayFrame,
   .renameCols,
   .olsFit "multi_cat_model" "price" ["sq__ft", "beds", "type_Multi_Family", "type_Residential"],
   .printSummary "multi_cat_model"]

/-- The statements that load a dataset. -/
def isLoad : NotebookOp → Bool
  | .loadWine => true
  | .readCsv _ => true
  | _ => false

/-! ## Lemmas about the standardization -/

namespace Assignment

theorem sum_map_div (xs : List ℚ) (f : ℚ → ℚ) (s : ℚ) :
    (xs.map fun x => f x / s).sum = (xs.map f).sum / s := by
  induction xs with
  | nil => simp
  | cons a l ih => simp [ih, div_add_div_same]

theorem sum_map_sub (xs : List ℚ) (m : ℚ) :
    (xs.map fun x => x - m).sum = xs.sum - xs.length * m := by
  induction xs with
  | nil => simp
  | cons a l ih => simp [ih]; ring

theorem sum_sub_mean (xs : List ℚ) :
    (xs.map fun x => x - colMean xs).sum = 0 := by
  rcases eq_or_ne xs [] with rfl | h
  · simp
  · have hn : (xs.length : ℚ) ≠ 0 := by
      simp [List.length_eq_zero, h]
    rw [sum_map_sub, colMean, mul_div_cancel₀ _ hn, sub_self]

/-- A column transformed with its own mean has mean zero. -/
theorem colMean_transform_center (xs : List ℚ) (s : ℚ) :
    colMean (transformColumn (colMean xs) s xs) = 0 := by
  rw [colMean, transformColumn, sum_map_div, sum_sub_mean]
  simp

/-- A nonempty column transformed with its own mean and its own standard
deviation has variance one. -/
theorem colVar_transform_center (xs : List ℚ) (s : ℚ) (hx : xs ≠ [])
    (hs : 0 < s) (hv : s ^ 2 = colVar xs) :
    colVar (transformColumn (colMean xs) s xs) = 1 := by
  have hvpos : 0 < colVar xs := hv ▸ pow_pos hs 2
  have hn : (xs.length : ℚ) ≠ 0 := by
    simp [List.length_eq_zero, hx]
  rw [colVar, colMean_transform_center]
  have h1 : ((transformColumn (colMean xs) s xs).map fun x => (x - 0) ^ 2).sum
      = ((xs.map fun x => (x - colMean xs) ^ 2).sum) / s ^ 2 := by
    rw [transformColumn, List.map_map]
    have : ((fun x => (x - 0) ^ 2) ∘ fun x => (x - colMean xs) / s)
        = fun x => ((x - colMean xs) ^ 2) / s ^ 2 := by
      funext x; simp [div_pow]
    rw [this]
    exact sum_map_div xs (fun x => (x - colMean xs) ^ 2) (s ^ 2)
  rw [h1, transformColumn, List.length_map]
  rw [div_div, mul_comm, ← div_div]
  rw [← colVar, ← hv]
  exact div_self (by positivity)

end Assignment

/-! ## Claim C1 -/

open Assignment in
/-- C1, counterexample.  The claim says the standardization statistics are
computed from training-fold rows only.  In the notebook the fit_transform cell
runs before the split, on all rows.  Concretely: on the predictor column
[3, 3, 3, 1, 1, 1, 5, 7], for the run whose shuffled index order is
[6, 7, 0, 1, 2, 3, 4, 5] (training fold = rows 0..5), the cell fits on all
eight rows and gets mean 3 and standard deviation 2, while the training fold
alone has mean 2 and standard deviation 1; the standardized frames differ. -/
theorem C1_counterexample :
    IsStdOf 2 (fitColumn [3, 3, 3, 1, 1, 1, 5, 7]) ∧
    IsStdOf 1 (fitColumn (selectRows (trainIdx [6, 7, 0, 1, 2, 3, 4, 5]) [3, 3, 3, 1, 1, 1, 5, 7])) ∧
    fitColumn [3, 3, 3, 1, 1, 1, 5, 7]
      ≠ fitColumn (selectRows (trainIdx [6, 7, 0, 1, 2, 3, 4, 5]) [3, 3, 3, 1, 1, 1, 5, 7]) ∧
    predictors_standardized (wine_df [[3, 3, 3, 1, 1, 1, 5, 7]] [0, 0, 0, 1, 1, 1, 2, 2]) [2]
      ≠ [spec_train_standardize (trainIdx [6, 7, 0, 1, 2, 3, 4, 5]) [3, 3, 3, 1, 1, 1, 5, 7] 1] := by
  refine ⟨?_, ?_, ?_, ?_⟩ <;>
    norm_num [IsStdOf, fitColumn, colVar, colMean, selectRows, trainIdx, testIdx, testCount,
      predictors_standardized, fit_transform, predictors, wine_df, transformColumn,
      spec_train_standardize, ScalerStats.mk.injEq]

open Assignment in
/-- C1, amended: every predictor column is standardized by subtracting the
column mean and dividing by the column standard deviation, but the statistics
are computed from the entire data set (all rows, before the split), not from
training-fold rows only; the response column class is excluded from
standardization and kept unchanged as the last column of the frame.  With the
whole-column statistics the standardized columns indeed have mean zero and
variance one. -/
theorem C1_standardization_amended
    (features : List (List ℚ)) (classCol : List ℚ) (stds : List ℚ)
    (hstd : ∀ p ∈ List.zip features stds, p.1 ≠ [] ∧ 0 < p.2 ∧ p.2 ^ 2 = colVar p.1) :
    predictors (wine_df features classCol) = features ∧
    (wine_df features classCol).getLast? = some classCol ∧
    predictors_standardized (wine_df features classCol) stds
      = List.zipWith (fun col s => transformColumn (colMean col) s col) features stds ∧
    ∀ p ∈ List.zip features stds,
      colMean (transformColumn (colMean p.1) p.2 p.1) = 0 ∧
      colVar (transformColumn (colMean p.1) p.2 p.1) = 1 := by
  have hpred : predictors (wine_df features classCol) = features := by
    simp [predictors, wine_df]
  refine ⟨hpred, by simp [wine_df], by rw [predictors_standardized, hpred]; rfl, ?_⟩
  intro p hp
  obtain ⟨hne, hs, hv⟩ := hstd p hp
  exact ⟨colMean_transform_center p.1 p.2, colVar_transform_center p.1 p.2 hne hs hv⟩

open Assignment in
/-- Witness theorem for C1: the single predictor column [0, 4]
(mean 2, variance 4, standard deviation 2) with class column [5, 6]. -/
theorem C1_standardization_amended_witness :
    (∀ p ∈ List.zip [[(0 : ℚ), 4]] [(2 : ℚ)], p.1 ≠ [] ∧ 0 < p.2 ∧ p.2 ^ 2 = colVar p.1) ∧
    (predictors (wine_df [[(0 : ℚ), 4]] [5, 6]) = [[0, 4]] ∧
     (wine_df [[(0 : ℚ), 4]] [5, 6]).getLast? = some [5, 6] ∧
     predictors_standardized (wine_df [[(0 : ℚ), 4]] [5, 6]) [2]
       = List.zipWith (fun col s => transformColumn (colMean col) s col) [[(0 : ℚ), 4]] [2] ∧
     ∀ p ∈ List.zip [[(0 : ℚ), 4]] [(2 : ℚ)],
       colMean (transformColumn (colMean p.1) p.2 p.1) = 0 ∧
       colVar (transformColumn (colMean p.1) p.2 p.1) = 1) := by
  have h : ∀ p ∈ List.zip [[(0 : ℚ), 4]] [(2 : ℚ)],
      p.1 ≠ [] ∧ 0 < p.2 ∧ p.2 ^ 2 = colVar p.1 := by
    intro p hp
    simp only [List.zip, List.zipWith, List.mem_singleton] at hp
    subst hp
    refine ⟨by simp, by norm_num, by norm_num [colVar, colMean]⟩
  exact ⟨h, C1_standardization_amended _ _ _ h⟩

/-! ## Claim C2 -/

namespace Assignment

/-- Reading the j-th selected row gives the cell of the original column at the
j-th index of the index list. -/
theorem selectRows_getElem (idx : List ℕ) (col : List ℚ)
    (hcol : ∀ i ∈ idx, i < col.length) (j i : ℕ) (hj : idx[j]? = some i) :
    (selectRows idx col)[j]? = col[i]? := by
  have hi : i < col.length := hcol i (List.getElem?_mem hj)
  rw [selectRows, List.getElem?_map, hj]
  simp [List.getD_eq_getElem col 0 hi, List.getElem?_eq_getElem hi]

end Assignment

open Assignment in
/-- C2: the split gives the test side the ceiling of a quarter of the rows and
the training side the rest (the 75/25 ratio), the two sides are disjoint,
together they cover all row indices, and the same index list drives the
predictor column and the response column, so a row keeps its X cells and its y
cell on the same side. -/
theorem C2_split_partition (n : ℕ) (perm : List ℕ) (hperm : perm.Perm (List.range n))
    (X : List ℚ) (y : List ℚ) (hX : X.length = n) (hy : y.length = n) :
    (testIdx perm).length = (n + 3) / 4 ∧
    (trainIdx perm).length = n - (n + 3) / 4 ∧
    (∀ i ∈ trainIdx perm, i ∉ testIdx perm) ∧
    (testIdx perm ++ trainIdx perm).Perm (List.range n) ∧
    (∀ (j i : ℕ), (trainIdx perm)[j]? = some i →
        (selectRows (trainIdx perm) X)[j]? = X[i]? ∧ (selectRows (trainIdx perm) y)[j]? = y[i]?) ∧
    (∀ (j i : ℕ), (testIdx perm)[j]? = some i →
        (selectRows (testIdx perm) X)[j]? = X[i]? ∧ (selectRows (testIdx perm) y)[j]? = y[i]?) := by
  have hlen : perm.length = n := hperm.length_eq.trans (List.length_range n)
  have hle : testCount n ≤ n := by unfold testCount; omega
  have hmem : ∀ i ∈ perm, i < n := by
    intro i hi
    exact List.mem_range.mp (hperm.mem_iff.mp hi)
  have happ : testIdx perm ++ trainIdx perm = perm :=
    List.take_append_drop _ perm
  have hnd : (testIdx perm ++ trainIdx perm).Nodup := by
    rw [happ]
    exact hperm.nodup_iff.mpr (List.nodup_range n)
  have hdisj : ∀ i ∈ trainIdx perm, i ∉ testIdx perm := by
    intro i hi hit
    exact ((List.nodup_append.mp hnd).2.2 hit hi)
  have htrmem : ∀ i ∈ trainIdx perm, i < n := fun i hi =>
    hmem i (List.mem_of_mem_drop hi)
  have htemem : ∀ i ∈ testIdx perm, i < n := fun i hi =>
    hmem i (List.mem_of_mem_take hi)
  refine ⟨?_, ?_, hdisj, by rw [happ]; exact hperm, ?_, ?_⟩
  · simp [testIdx, List.length_take, hlen, testCount]; omega
  · simp [trainIdx, List.length_drop, hlen, testCount]
  · intro j i hj
    exact ⟨selectRows_getElem _ X (fun i hi => hX ▸ htrmem i hi) j i hj,
           selectRows_getElem _ y (fun i hi => hy ▸ htrmem i hi) j i hj⟩
  · intro j i hj
    exact ⟨selectRows_getElem _ X (fun i hi => hX ▸ htemem i hi) j i hj,
           selectRows_getElem _ y (fun i hi => hy ▸ htemem i hi) j i hj⟩

open Assignment in
/-- Witness theorem for C2: four rows shuffled as [2, 0, 1, 3], so one test row
and three training rows. -/
theorem C2_split_partition_witness :
    ([2, 0, 1, 3] : List ℕ).Perm (List.range 4) ∧
    ((testIdx [2, 0, 1, 3]).length = (4 + 3) / 4 ∧
     (trainIdx [2, 0, 1, 3]).length = 4 - (4 + 3) / 4 ∧
     (∀ i ∈ trainIdx [2, 0, 1, 3], i ∉ testIdx [2, 0, 1, 3]) ∧
     (testIdx [2, 0, 1, 3] ++ trainIdx [2, 0, 1, 3]).Perm (List.range 4) ∧
     (∀ (j i : ℕ), (trainIdx [2, 0, 1, 3])[j]? = some i →
        (selectRows (trainIdx [2, 0, 1, 3]) [10, 20, 30, 40])[j]?
          = ([10, 20, 30, 40] : List ℚ)[i]? ∧
        (selectRows (trainIdx [2, 0, 1, 3]) [1, 2, 3, 4])[j]?
          = ([1, 2, 3, 4] : List ℚ)[i]?) ∧
     (∀ (j i : ℕ), (testIdx [2, 0, 1, 3])[j]? = some i →
        (selectRows (testIdx [2, 0, 1, 3]) [10, 20, 30, 40])[j]?
          = ([10, 20, 30, 40] : List ℚ)[i]? ∧
        (selectRows (testIdx [2, 0, 1, 3]) [1, 2, 3, 4])[j]?
          = ([1, 2, 3, 4] : List ℚ)[i]?)) := by
  have h : ([2, 0, 1, 3] : List ℕ).Perm (List.range 4) := by decide
  exact ⟨h, C2_split_partition 4 [2, 0, 1, 3] h [10, 20, 30, 40] [1, 2, 3, 4] rfl rfl⟩




/-! ## Claim C3 -/

namespace Assignment

/-- The left-to-right maximizer scan lands on a list member whose value bounds
every member. -/
theorem best_of_cons_spec (f : ℕ → ℚ) (g : ℕ) (gs : List ℕ) :
    best_of f (g :: gs) ∈ g :: gs ∧ ∀ k ∈ g :: gs, f k ≤ f (best_of f (g :: gs)) := by
  induction gs generalizing g with
  | nil => simp [best_of]
  | cons a as ih =>
    by_cases hfa : f g < f a
    · have hstep : best_of f (g :: a :: as) = best_of f (a :: as) := by
        simp [best_of, hfa]
      obtain ⟨hmem, hmax⟩ := ih a
      refine ⟨?_, ?_⟩
      · rw [hstep]; exact List.mem_cons_of_mem _ hmem
      · intro k hk
        rw [hstep]
        rcases List.mem_cons.mp hk with rfl | hk2
        · exact le_trans (le_of_lt hfa) (hmax _ (List.mem_cons_self _ _))
        · exact hmax k hk2
    · have hstep : best_of f (g :: a :: as) = best_of f (g :: as) := by
        simp [best_of, hfa]
      obtain ⟨hmem, hmax⟩ := ih g
      refine ⟨?_, ?_⟩
      · rw [hstep]
        rcases List.mem_cons.mp hmem with h | hk2
        · rw [h]; exact List.mem_cons_self _ _
        · exact List.mem_cons_of_mem _ (List.mem_cons_of_mem _ hk2)
      · intro k hk
        rw [hstep]
        rcases List.mem_cons.mp hk with rfl | hk2
        · exact hmax _ (List.mem_cons_self _ _)
        rcases List.mem_cons.mp hk2 with rfl | hk3
        · exact le_trans (le_of_not_lt hfa) (hmax _ (List.mem_cons_self _ _))
        · exact hmax k (List.mem_cons_of_mem _ hk3)

end Assignment

open Assignment in
/-- C3: the model-selection step ranges over the grid of every integer from 1
to 50 for n_neighbors, averages the validation score over the ten
cross-validation folds, and the recorded grid point has a mean validation
score at least that of every grid point (so it is maximal). -/
theorem C3_grid_search (score : ℕ → ℕ → ℚ) :
    param_grid.length = 50 ∧
    (∀ k : ℕ, k ∈ param_grid ↔ 1 ≤ k ∧ k ≤ 50) ∧
    fold_count = 10 ∧
    best_n_neighbors score ∈ param_grid ∧
    ∀ k ∈ param_grid, mean_score score k ≤ mean_score score (best_n_neighbors score) := by
  have hne : param_grid ≠ [] := by decide
  obtain ⟨g, gs, hcons⟩ := List.exists_cons_of_ne_nil hne
  have hspec := best_of_cons_spec (mean_score score) g gs
  rw [← hcons] at hspec
  refine ⟨by decide, ?_, rfl, hspec.1, hspec.2⟩
  intro k
  simp only [param_grid, List.mem_map, List.mem_range]
  constructor
  · rintro ⟨a, ha, rfl⟩; omega
  · intro hk; exact ⟨k - 1, by omega, by omega⟩

/-! ## Claim C4 -/

namespace Assignment

theorem accuracy_score_nonneg (yTrue yPred : List ℕ) : 0 ≤ accuracy_score yTrue yPred := by
  unfold accuracy_score
  positivity

theorem accuracy_score_le_one (yTrue yPred : List ℕ) : accuracy_score yTrue yPred ≤ 1 := by
  unfold accuracy_score
  rcases eq_or_ne yTrue [] with rfl | h
  · simp
  · have hn : (0 : ℚ) < yTrue.length := by
      exact_mod_cast List.length_pos.mpr h
    rw [div_le_one hn]
    have hcount : (List.zip yTrue yPred).countP (fun p => p.1 == p.2) ≤ yTrue.length :=
      le_trans (List.countP_le_length _) (by rw [List.length_zip]; exact min_le_left _ _)
    exact_mod_cast hcount

/-- The reported fraction times the number of test samples is the number of
correctly classified test samples. -/
theorem accuracy_score_mul (yTrue yPred : List ℕ) :
    accuracy_score yTrue yPred * yTrue.length
      = ((List.zip yTrue yPred).countP fun p => p.1 == p.2) := by
  unfold accuracy_score
  rcases eq_or_ne yTrue [] with rfl | h
  · simp
  · have hn : (yTrue.length : ℚ) ≠ 0 := by
      simp [List.length_eq_zero, h]
    rw [div_mul_cancel₀ _ hn]

/-- Lists of equal length agree pairwise on their zip exactly when they are
equal. -/
theorem zip_eq_iff {a b : List ℕ} (h : a.length = b.length) :
    (∀ p ∈ List.zip a b, p.1 = p.2) ↔ a = b := by
  induction a generalizing b with
  | nil =>
    cases b with
    | nil => simp
    | cons y ys => simp at h
  | cons x xs ih =>
    cases b with
    | nil => simp at h
    | cons y ys =>
      simp only [List.length_cons, Nat.succ.injEq] at h
      simp only [List.zip_cons_cons, List.mem_cons, List.cons.injEq]
      constructor
      · intro hp
        have hx := hp (x, y) (Or.inl rfl)
        refine ⟨hx, (ih h).mp ?_⟩
        intro p hmem
        exact hp p (Or.inr hmem)
      · rintro ⟨rfl, rfl⟩ p hp
        rcases hp with rfl | hp2
        · rfl
        · exact ((ih h).mpr rfl) p hp2

/-- The reported accuracy is one exactly when every test sample is classified
correctly. -/
theorem accuracy_score_eq_one_iff (yTrue yPred : List ℕ) (h : yTrue.length = yPred.length)
    (hne : yTrue ≠ []) : accuracy_score yTrue yPred = 1 ↔ yPred = yTrue := by
  unfold accuracy_score
  have hn : (yTrue.length : ℚ) ≠ 0 := by
    simp [List.length_eq_zero, hne]
  rw [div_eq_one_iff_eq hn]
  have hzlen : (List.zip yTrue yPred).length = yTrue.length := by
    rw [List.length_zip, h, min_self]
  constructor
  · intro hc
    have hc2 : (List.zip yTrue yPred).countP (fun p => p.1 == p.2)
        = (List.zip yTrue yPred).length := by
      rw [hzlen]; exact_mod_cast hc
    have hall := List.countP_eq_length.mp hc2
    exact ((zip_eq_iff h).mp fun p hp => by simpa using hall p hp).symm
  · rintro rfl
    have hall : ∀ p ∈ List.zip yPred yPred, p.1 = p.2 := (zip_eq_iff rfl).mpr rfl
    have hc2 : (List.zip yPred yPred).countP (fun p => p.1 == p.2)
        = (List.zip yPred yPred).length :=
      List.countP_eq_length.mpr (fun p hp => by simpa using hall p hp)
    rw [hc2, hzlen]

end Assignment

open Assignment in
/-- C4: the evaluation step scores the model refit with the selected
n_neighbors on the full training partition, against the held-out test partition
and nothing else: the reported number is the accuracy_score of the test
predictions of the refit model, it is the fraction of correctly classified test
samples (times the test size it counts the correct ones), it lies in [0, 1],
and it is 1 exactly when every test sample is classified correctly. -/
theorem C4_evaluation (knn : ℕ → List (List ℚ × ℕ) → List ℚ → ℕ) (score : ℕ → ℕ → ℚ)
    (Xtrain : List (List ℚ)) (ytrain : List ℕ) (Xtest : List (List ℚ)) (ytest : List ℕ)
    (hlen : Xtest.length = ytest.length) :
    eval_step knn score Xtrain ytrain Xtest ytest
      = accuracy_score ytest
          (Xtest.map (knn (best_n_neighbors score) (List.zip Xtrain ytrain))) ∧
    0 ≤ eval_step knn score Xtrain ytrain Xtest ytest ∧
    eval_step knn score Xtrain ytrain Xtest ytest ≤ 1 ∧
    eval_step knn score Xtrain ytrain Xtest ytest * ytest.length
      = ((List.zip ytest (Xtest.map (knn (best_n_neighbors score) (List.zip Xtrain ytrain)))).countP
          fun p => p.1 == p.2) ∧
    (ytest ≠ [] →
      (eval_step knn score Xtrain ytrain Xtest ytest = 1
        ↔ Xtest.map (knn (best_n_neighbors score) (List.zip Xtrain ytrain)) = ytest)) := by
  refine ⟨rfl, accuracy_score_nonneg _ _, accuracy_score_le_one _ _, accuracy_score_mul _ _, ?_⟩
  intro hne
  exact accuracy_score_eq_one_iff ytest _ (by rw [List.length_map, hlen]) hne


open Assignment in
/-- Witness theorem for C4: one test row with true label 0, each predicted
label 0, so the reported accuracy is defined and maximal. -/
theorem C4_evaluation_witness :
    ([[(3 : ℚ)]] : List (List ℚ)).length = ([0] : List ℕ).length ∧
    (eval_step constKnn constScore [[1], [2]] [0, 1] [[3]] [0]
      = accuracy_score [0]
          (([[(3 : ℚ)]]).map (constKnn (best_n_neighbors constScore) (List.zip [[1], [2]] [0, 1]))) ∧
    0 ≤ eval_step constKnn constScore [[1], [2]] [0, 1] [[3]] [0] ∧
    eval_step constKnn constScore [[1], [2]] [0, 1] [[3]] [0] ≤ 1 ∧
    eval_step constKnn constScore [[1], [2]] [0, 1] [[3]] [0] * ([0] : List ℕ).length
      = ((List.zip ([0] : List ℕ)
            (([[(3 : ℚ)]]).map (constKnn (best_n_neighbors constScore) (List.zip [[1], [2]] [0, 1])))).countP
          fun p => p.1 == p.2) ∧
    (([0] : List ℕ) ≠ [] →
      (eval_step constKnn constScore [[1], [2]] [0, 1] [[3]] [0] = 1
        ↔ ([[(3 : ℚ)]]).map (constKnn (best_n_neighbors constScore) (List.zip [[1], [2]] [0, 1]))
            = [0]))) :=
  ⟨rfl, C4_evaluation constKnn constScore [[1], [2]] [0, 1] [[3]] [0] rfl⟩

/-! ## Claim C5 -/

open Inference in
/-- C5: one-hot encoding the type column with drop_first produces one binary
indicator column per category minus the dropped reference: of the three
categories the first in sorted order, Condo, is dropped, leaving exactly the
two indicator columns Multi-Family and Residential (named type_Multi_Family and
type_Residential after the rename cell), and every indicator cell is 0 or 1. -/
theorem C5_one_hot_encoding :
    get_dummies_cols type_categories true = ["Multi-Family", "Residential"] ∧
    (get_dummies_cols type_categories true).length = type_categories.length - 1 ∧
    "Condo" ∉ get_dummies_cols type_categories true ∧
    type_categories.head? = some "Condo" ∧
    get_dummies_cols type_categories true = type_categories.tail ∧
    (∀ v : String, ∀ c ∈ get_dummies_cols type_categories true,
      dummy_val c v = 0 ∨ dummy_val c v = 1) ∧
    encoded_type_cols = ["type_Multi_Family", "type_Residential"] ∧
    NotebookOp.getDummiesCell ["type"] true ∈ inference_notebook := by
  refine ⟨by decide, by decide, by decide, by decide, by decide, ?_, by decide, by decide⟩
  intro v c hc
  unfold dummy_val
  split <;> simp

/-! ## Claim C6 -/

open Inference in
/-- C6: the teaching notebook fits exactly three OLS regressions, in order the
simple one (price on sq__ft), the multivariable one (price on sq__ft and beds),
and the categorical one (price on sq__ft, beds and the two one-hot type
columns); each fitted model has its summary printed, and every summary shows
coefficients, standard errors, t-statistics, p-values, confidence intervals and
R-squared. -/
theorem C6_three_ols_fits :
    olsFits inference_notebook
      = [("model", "price", ["sq__ft"]),
         ("multi_model", "price", ["sq__ft", "beds"]),
         ("multi_cat_model", "price", ["sq__ft", "beds", "type_Multi_Family", "type_Residential"])] ∧
    (olsFits inference_notebook).length = 3 ∧
    (∀ c ∈ encoded_type_cols,
      c ∈ ["sq__ft", "beds", "type_Multi_Family", "type_Residential"]) ∧
    (∀ f ∈ olsFits inference_notebook, NotebookOp.printSummary f.1 ∈ inference_notebook) ∧
    (∀ s : SummaryStat, s ∈ summary_stats) := by
  refine ⟨by decide, by decide, by decide, by decide, ?_⟩
  intro s
  cases s <;> decide

/-! ## Claim C7 -/

/-- Helper for C7: a run whose prefix succeeds and whose next statement raises
ends in that error, whatever statements follow. -/
theorem runCells_append_error {St Err : Type} (exec : NotebookOp → St → Except Err St)
    (cs1 cs2 : List NotebookOp) (c : NotebookOp) (s0 s : St) (e : Err)
    (h1 : runCells exec cs1 s0 = .ok s) (h2 : exec c s = .error e) :
    runCells exec (cs1 ++ c :: cs2) s0 = .error e := by
  induction cs1 generalizing s0 with
  | nil =>
    simp only [runCells, Except.ok.injEq] at h1
    subst h1
    simp [runCells, h2]
  | cons a as ih =>
    simp only [List.cons_append, runCells] at h1 ⊢
    cases hexec : exec a s0 with
    | ok s2 => rw [hexec] at h1; exact ih s2 h1
    | error e2 => rw [hexec] at h1; exact absurd h1 (by simp)

/-- C7: in either notebook, when a statement raises, the exception propagates
uncaught: the whole run ends in exactly that error, and the statements after
the raising one never influence the outcome (no handler, retry, recovery or
fallback exists in the embedded cell lists, which contain plain calls only). -/
theorem C7_exception_propagation {St Err : Type} (exec : NotebookOp → St → Except Err St)
    (nb cs1 cs2 : List NotebookOp) (c : NotebookOp) (s0 s : St) (e : Err)
    (hnb : nb = assignment_notebook ∨ nb = inference_notebook)
    (hsplit : nb = cs1 ++ c :: cs2)
    (h1 : runCells exec cs1 s0 = .ok s)
    (h2 : exec c s = .error e) :
    runCells exec nb s0 = .error e ∧
    ∀ rest : List NotebookOp, runCells exec (cs1 ++ c :: rest) s0 = .error e := by
  subst hsplit
  exact ⟨runCells_append_error exec cs1 cs2 c s0 s e h1 h2,
         fun rest => runCells_append_error exec cs1 rest c s0 s e h1 h2⟩


/-- Witness theorem for C7: a run of the teaching notebook whose csv read
raises 404 ends in error 404. -/
theorem C7_exception_propagation_witness :
    (inference_notebook = assignment_notebook ∨ inference_notebook = inference_notebook) ∧
    inference_notebook
      = [NotebookOp.importLibs] ++ NotebookOp.readCsv sacramento_csv_path :: opsAfterRead ∧
    runCells failingExec [NotebookOp.importLibs] 0 = .ok 1 ∧
    failingExec (NotebookOp.readCsv sacramento_csv_path) 1 = .error 404 ∧
    (runCells failingExec inference_notebook 0 = .error 404 ∧
     ∀ rest : List NotebookOp,
       runCells failingExec ([NotebookOp.importLibs] ++ NotebookOp.readCsv sacramento_csv_path :: rest) 0
         = .error 404) :=
  ⟨Or.inr rfl, rfl, rfl, rfl,
   C7_exception_propagation failingExec inference_notebook [NotebookOp.importLibs] opsAfterRead
     (NotebookOp.readCsv sacramento_csv_path) 0 1 404 (Or.inr rfl) rfl rfl rfl⟩

/-! ## Claim C8 -/


/-- C8: each notebook loads its one fixed dataset exactly once per run: the
only load statement of the assignment notebook is the load_wine call, and the
only load statement of the teaching notebook is the read of the fixed relative
csv path. -/
theorem C8_single_load :
    assignment_notebook.filter isLoad = [NotebookOp.loadWine] ∧
    inference_notebook.filter isLoad = [NotebookOp.readCsv sacramento_csv_path] ∧
    sacramento_csv_path = "../../01_materials/notebooks/dataset/sacramento.csv" :=
  ⟨by decide, by decide, rfl⟩

/-! ## Claim C9 -/

open Inference in
/-- C9: for a row whose original type is one of the three categories, the two
indicator cells of the encoded row are each 0 or 1, never both 1, and both are
0 exactly when the original type was the dropped reference category Condo. -/
theorem C9_indicator_invariant (v : String) (hv : v ∈ type_categories) :
    encode_row type_categories true v
      = [dummy_val "Multi-Family" v, dummy_val "Residential" v] ∧
    (dummy_val "Multi-Family" v = 0 ∨ dummy_val "Multi-Family" v = 1) ∧
    (dummy_val "Residential" v = 0 ∨ dummy_val "Residential" v = 1) ∧
    ¬(dummy_val "Multi-Family" v = 1 ∧ dummy_val "Residential" v = 1) ∧
    ((dummy_val "Multi-Family" v = 0 ∧ dummy_val "Residential" v = 0) ↔ v = "Condo") := by
  rcases List.mem_cons.mp hv with rfl | hv2
  · decide
  rcases List.mem_cons.mp hv2 with rfl | hv3
  · decide
  rcases List.mem_cons.mp hv3 with rfl | hv4
  · decide
  · exact absurd hv4 (List.not_mem_nil v)

open Inference in
/-- Witness theorem for C9 at the reference category Condo. -/
theorem C9_indicator_invariant_witness :
    ("Condo" ∈ type_categories) ∧
    (encode_row type_categories true "Condo"
      = [dummy_val "Multi-Family" "Condo", dummy_val "Residential" "Condo"] ∧
    (dummy_val "Multi-Family" "Condo" = 0 ∨ dummy_val "Multi-Family" "Condo" = 1) ∧
    (dummy_val "Residential" "Condo" = 0 ∨ dummy_val "Residential" "Condo" = 1) ∧
    ¬(dummy_val "Multi-Family" "Condo" = 1 ∧ dummy_val "Residential" "Condo" = 1) ∧
    ((dummy_val "Multi-Family" "Condo" = 0 ∧ dummy_val "Residential" "Condo" = 0)
      ↔ "Condo" = "Condo")) :=
  ⟨by decide, C9_indicator_invariant "Condo" (by decide)⟩

/-! ## Claim C10 -/

open Assignment in
/-- C10: the hard-coded seed call np.random.seed(123) is in the assignment
notebook, and the split is deterministic given that seed: whatever generator
states two runs start from, after seeding with 123 the split of the same input
data yields identical training partitions and identical test partitions. -/
theorem C10_seed_determinism (s1 s2 : RngState) (X : List (List ℚ)) (y : List ℚ) :
    NotebookOp.setSeed 123 ∈ assignment_notebook ∧
    split_run (np_random_seed 123 s1) X y = split_run (np_random_seed 123 s2) X y :=
  ⟨by decide, rfl⟩

end LCR
